import Mathlib

/-!
Shallow embedding of `src/organizer/organize_media.py` (a media-sweep
organizer: parse filenames, optionally resolve against TMDB, and move the
files into a normalized layout), together with theorems settling the claims
about it.

Conventions of the embedding:
* Python `Optional[T]` becomes `Option T`; a missing dict key is `none`.
* Python truthiness on strings (`if title:`) is "present and non-empty";
  on optional ints (`elif year:`) it is "present and non-zero".
* Network calls are modelled by a response oracle (`TmdbResponse`): the
  constructor `raiseOnGet` stands for `requests.get` raising, `status ok body`
  for a reply with `r.ok = ok`; `body = none` stands for a body whose JSON
  decoding fails (`r.json()` raises), `body = some none` for a decoded object
  whose `results` key is missing or null, and `body = some (some l)` for a
  result list `l`.
* Functions that can raise in Python return `Except Unit _`; `.error ()` is
  an uncaught Python exception escaping the function.
* Each resolver call also reports how many HTTP requests it performed
  (`NetResult.calls`), so "no network I/O" is statable.
-/

namespace Organizer

/-- Python truthiness of an optional string (`None` and `""` are falsy). -/
def pyTruthyStr : Option String → Bool
  | none => false
  | some s => s ≠ ""

/-- Python truthiness of an optional integer (`None` and `0` are falsy). -/
def pyTruthyNat : Option Nat → Bool
  | none => false
  | some n => n ≠ 0

/-- Python `a or b` on strings: `b` when `a` is empty, else `a`. -/
def pyOrStr (a b : String) : String :=
  if a = "" then b else a

/-- Python `a or b` where `a` is an optional int and `b` an optional int. -/
def pyOrNat (a b : Option Nat) : Option Nat :=
  if pyTruthyNat a then a else b

/-- Python `str.isdigit()` restricted to ASCII digit strings: non-empty and
all characters are decimal digits (release-date prefixes are ASCII). -/
def pyIsDigit (s : String) : Bool :=
  s ≠ "" && s.data.all Char.isDigit

/-- Python `int(s)` on a digit string: its decimal value. -/
def strToNat (s : String) : Nat :=
  s.data.foldl (fun a c => a * 10 + (c.toNat - 48)) 0

/-- Python `str.upper()` for the ASCII tokens involved, character by
character. (Same characters as `String.toUpper`, whose `mapAux` recursion
does not reduce in the kernel.) -/
def pyUpper (s : String) : String :=
  String.mk (s.data.map Char.toUpper)

/-- Index of the last `.` in a character list, if any. -/
def lastDotIdx : List Char → Option Nat
  | [] => none
  | c :: cs =>
    match lastDotIdx cs with
    | some i => some (i + 1)
    | none => if c = '.' then some 0 else none

/-- `pathlib.PurePath.suffix`: the extension from the last dot, provided that
dot is neither the first nor the last character of the name. -/
def pathSuffix (name : String) : String :=
  let cs := name.toList
  match lastDotIdx cs with
  | some i => if 0 < i ∧ i < cs.length - 1 then String.mk (cs.drop i) else ""
  | none => ""

/-- `f"{n:02d}"` for a natural number: zero-pad to (at least) two digits. -/
def pad2 (n : Nat) : String :=
  if n < 10 then "0" ++ toString n else toString n

/-- `MIN_SIZE_BYTES = 50 * 1024 * 1024` (line 27). -/
def MIN_SIZE_BYTES : Nat := 50 * 1024 * 1024

/-- `SLEEP_SECONDS` default (line 28): read from the environment with default
300, and never referenced again anywhere in the program. -/
def SLEEP_SECONDS : Nat := 300

/-- The structured guess produced by `guessit(path.name)` for one filename,
restricted to the keys the program reads. -/
structure MediaGuess where
  type : Option String
  title : Option String
  year : Option Nat
  season : Option Nat
  episode : Option Nat
  screen_size : Option String
  source : Option String
  video_codec : Option String
  audio_codec : Option String
deriving DecidableEq, Repr

/-- One element of TMDB's movie-search `results` list, restricted to the keys
the program reads. -/
structure MovieCandidate where
  title : Option String
  release_date : Option String
deriving DecidableEq, Repr

/-- One element of TMDB's tv-search `results` list, restricted to the keys
the program reads. -/
structure TVCandidate where
  name : Option String
  first_air_date : Option String
deriving DecidableEq, Repr

/-- Oracle for one `requests.get` call against TMDB (see module docstring). -/
inductive TmdbResponse (α : Type) where
  | raiseOnGet : TmdbResponse α
  | status (ok : Bool) (body : Option (Option (List α))) : TmdbResponse α

/-- The dict returned by `tmdb_search_movie` on a match. -/
structure MovieResolved where
  title : String
  year : Option Nat
deriving DecidableEq, Repr

/-- The dict returned by `tmdb_search_tv` on a match. -/
structure TVResolved where
  name : String
  year : Option Nat
deriving DecidableEq, Repr

instance {ε α : Type} [DecidableEq ε] [DecidableEq α] : DecidableEq (Except ε α) := fun a b =>
  match a, b with
  | .ok x, .ok y =>
    if h : x = y then .isTrue (congrArg Except.ok h)
    else .isFalse (fun hc => h (Except.ok.inj hc))
  | .error x, .error y =>
    if h : x = y then .isTrue (congrArg Except.error h)
    else .isFalse (fun hc => h (Except.error.inj hc))
  | .ok _, .error _ => .isFalse (fun hc => Except.noConfusion hc)
  | .error _, .ok _ => .isFalse (fun hc => Except.noConfusion hc)

/-- Outcome of a resolver call: its result (or the exception it raises) and
the number of HTTP requests it performed. -/
structure NetResult (α : Type) where
  result : Except Unit α
  calls : Nat
deriving DecidableEq, Repr

/-- `tmdb_search_movie` (lines 54–77). Returns `None` immediately when no API
key is configured; otherwise performs one `requests.get` whose outcome is the
oracle `resp`. `r.ok = False` returns `None`; an undecodable body raises; a
missing/null/empty `results` list returns `None`; otherwise the first
candidate's title (or the query title) and a year taken from the first four
characters of `release_date` when they are digits, else the caller's truthy
`year`, else `None`. -/
def tmdb_search_movie (apiKey : String) (resp : TmdbResponse MovieCandidate)
    (title : String) (year : Option Nat) : NetResult (Option MovieResolved) :=
  if apiKey = "" then ⟨.ok none, 0⟩
  else
    match resp with
    | .raiseOnGet => ⟨.error (), 1⟩
    | .status ok body =>
      if ok = false then ⟨.ok none, 1⟩
      else
        match body with
        | none => ⟨.error (), 1⟩
        | some results0 =>
          match results0.getD [] with
          | [] => ⟨.ok none, 1⟩
          | best :: _ =>
            let release_date := (best.release_date).getD ""
            let movie_year : Option Nat :=
              if pyIsDigit (release_date.take 4) then some (strToNat (release_date.take 4))
              else if pyTruthyNat year then year
              else none
            ⟨.ok (some ⟨pyOrStr ((best.title).getD "") title, movie_year⟩), 1⟩

/-- `tmdb_search_tv` (lines 80–95), same shape as the movie search: first
candidate's `name` (or the query title) and a year from the first four
characters of `first_air_date` when they are digits, else `None`. -/
def tmdb_search_tv (apiKey : String) (resp : TmdbResponse TVCandidate)
    (title : String) : NetResult (Option TVResolved) :=
  if apiKey = "" then ⟨.ok none, 0⟩
  else
    match resp with
    | .raiseOnGet => ⟨.error (), 1⟩
    | .status ok body =>
      if ok = false then ⟨.ok none, 1⟩
      else
        match body with
        | none => ⟨.error (), 1⟩
        | some results0 =>
          match results0.getD [] with
          | [] => ⟨.ok none, 1⟩
          | best :: _ =>
            let name := pyOrStr ((best.name).getD "") title
            let first_air := (best.first_air_date).getD ""
            let year : Option Nat :=
              if pyIsDigit (first_air.take 4) then some (strToNat (first_air.take 4))
              else none
            ⟨.ok (some ⟨name, year⟩), 1⟩

/-- The loop body of `build_tag_suffix`'s dedup pass: append the token unless
it is already in the accumulated list (the `seen` set always holds exactly
the members of `uniq`). -/
def dedupStep (acc : List String) (t : String) : List String :=
  if t ∈ acc then acc else acc ++ [t]

/-- The `seen`/`uniq` loop of `build_tag_suffix` (lines 118–123): keep the
first occurrence of each token, in order. -/
def dedupFirst (l : List String) : List String :=
  l.foldl dedupStep []

/-- One `if field: tags.append(str(field).upper())` step of
`build_tag_suffix`. -/
def addTag (tags : List String) (field : Option String) : List String :=
  match field with
  | some s => if s = "" then tags else tags ++ [pyUpper s]
  | none => tags

/-- The `tags` list accumulated by `build_tag_suffix` before deduplication:
uppercased truthy fields in (screen_size, source, video_codec, audio_codec)
order. -/
def tagList (info : MediaGuess) : List String :=
  addTag (addTag (addTag (addTag [] info.screen_size) info.source) info.video_codec)
    info.audio_codec

/-- `build_tag_suffix` (lines 98–125). -/
def build_tag_suffix (info : MediaGuess) : String :=
  let uniq := dedupFirst (tagList info)
  if uniq = [] then "" else " [" ++ String.intercalate " " uniq ++ "]"

/-- The process-wide configuration and the outcomes of the (at most one per
handler) TMDB requests a file's processing would perform. -/
structure Env where
  apiKey : String
  tvDir : String
  moviesDir : String
  movieResp : TmdbResponse MovieCandidate
  tvResp : TmdbResponse TVCandidate

/-- One file as the sweep sees it: `is_file` status, `stat().st_size`
(`none` when `stat` raises, e.g. the file vanished), base name, and whether
the `shutil.move` at the end of a handler would succeed. -/
structure FileView where
  isFile : Bool
  size : Option Nat
  name : String
  moveOk : Bool
deriving DecidableEq, Repr

/-- `handle_episode` (lines 128–151): skip (`.ok none`) when the title is
falsy or season/episode is `None`; otherwise resolve the show name
best-effort via `tmdb_search_tv` (whose exceptions propagate), build the tag
suffix, and move to
`TV_DIR/<show>/Season SS/<show> - SSSEEE<tags><suffix>`; returns the
destination on success. -/
def handle_episode (env : Env) (f : FileView) (info : MediaGuess) :
    Except Unit (Option String) :=
  match info.title, info.season, info.episode with
  | some title, some season, some episode =>
    if title = "" then .ok none
    else
      match (tmdb_search_tv env.apiKey env.tvResp title).result with
      | .error e => .error e
      | .ok tmdb_info =>
        let show_name :=
          match tmdb_info with
          | some r => pyOrStr r.name title
          | none => title
        let tag_suffix := build_tag_suffix info
        let season_dir := env.tvDir ++ "/" ++ show_name ++ "/Season " ++ pad2 season
        let new_name := show_name ++ " - S" ++ pad2 season ++ "E" ++ pad2 episode
          ++ tag_suffix ++ pathSuffix f.name
        if f.moveOk then .ok (some (season_dir ++ "/" ++ new_name)) else .error ()
  | _, _, _ => .ok none

/-- `handle_movie` (lines 154–179): skip (`.ok none`) when the title is
falsy; otherwise resolve title/year best-effort via `tmdb_search_movie`
(whose exceptions propagate), and move to
`MOVIES_DIR/<title> (<year>)<tags><suffix>`, the year omitted when falsy;
returns the destination on success. -/
def handle_movie (env : Env) (f : FileView) (info : MediaGuess) :
    Except Unit (Option String) :=
  match info.title with
  | none => .ok none
  | some title0 =>
    if title0 = "" then .ok none
    else
      match (tmdb_search_movie env.apiKey env.movieResp title0 info.year).result with
      | .error e => .error e
      | .ok tmdb_info =>
        let title :=
          match tmdb_info with
          | some r => pyOrStr r.title title0
          | none => title0
        let year :=
          match tmdb_info with
          | some r => pyOrNat r.year info.year
          | none => info.year
        let tag_suffix := build_tag_suffix info
        let base :=
          match year with
          | some y => if y = 0 then title else title ++ " (" ++ toString y ++ ")"
          | none => title
        let new_name := base ++ tag_suffix ++ pathSuffix f.name
        if f.moveOk then .ok (some (env.moviesDir ++ "/" ++ new_name)) else .error ()

/-- What one `process_file` call did: whether `guessit` was invoked on the
file's name, and the destination it was moved to, if any. -/
structure ProcessTrace where
  parsed : Bool
  moved : Option String
deriving DecidableEq, Repr

/-- `process_file` (lines 182–198): return at once when the path is not a
regular file; raise if `stat` raises; skip files under `MIN_SIZE_BYTES`;
otherwise classify the `guessit` result and dispatch to the handlers
(anything but "episode"/"movie" is skipped with a log). -/
def process_file (env : Env) (guess : String → MediaGuess) (f : FileView) :
    Except Unit ProcessTrace :=
  if f.isFile = false then .ok ⟨false, none⟩
  else
    match f.size with
    | none => .error ()
    | some sz =>
      if sz < MIN_SIZE_BYTES then .ok ⟨false, none⟩
      else
        let info := guess f.name
        match info.type with
        | some "episode" => (handle_episode env f info).map (fun d => ⟨true, d⟩)
        | some "movie" => (handle_movie env f info).map (fun d => ⟨true, d⟩)
        | _ => .ok ⟨true, none⟩

/-- The outcome of one sweep: whether the missing-source-root early return
was taken, and, in enumeration order, the outcome of the one `process_file`
attempt made for each enumerated file (`.error` = the exception that the
per-file `except` block caught and logged). -/
structure SweepResult where
  earlyReturn : Bool
  attempts : List (Except Unit ProcessTrace)
deriving DecidableEq, Repr

/-- `sweep_once` (lines 201–212): log and return early when the downloads
root does not exist; otherwise call `process_file` once per enumerated file,
catching (and logging) any exception at the per-file boundary, so the sweep
itself never raises — which the return type (no `Except`) records. -/
def sweep_once (env : Env) (guess : String → MediaGuess) (rootExists : Bool)
    (files : List FileView) : SweepResult :=
  if rootExists = false then ⟨true, []⟩
  else ⟨false, files.map (fun f => process_file env guess f)⟩

/-- An HTTP reply from the trigger server. -/
structure HttpReply where
  status : Nat
  body : String
deriving DecidableEq, Repr

/-- `TriggerHandler.do_POST` (lines 31–46): `POST /scan-once` runs
`sweep_once` and answers 200 "OK"; the 500 "ERROR" branch fires only when
`sweep_once` raises, which it never does (its per-file `except` swallows
processing errors and the missing-root case is an early `return`), so the
success reply is unconditional; any other path gets 404. -/
def do_POST (env : Env) (guess : String → MediaGuess) (rootExists : Bool)
    (files : List FileView) (path : String) : HttpReply :=
  if path = "/scan-once" then
    let _ := sweep_once env guess rootExists files
    ⟨200, "OK"⟩
  else ⟨404, ""⟩

/-- `main` (lines 215–233), counting the sweeps the process runs: with
`--once` exactly one `sweep_once()` call; otherwise the process starts
`HTTPServer(...).serve_forever()`, so sweeps happen only when a
`POST /scan-once` request arrives — there is no periodic timer and
`SLEEP_SECONDS` is never consulted. -/
def main_sweep_count (runOnce : Bool) (requests : List String) : Nat :=
  if runOnce then 1
  else (requests.filter (fun p => p = "/scan-once")).length

/-- The tokens a single tag field contributes. -/
def tagOf : Option String → List String
  | some s => if s = "" then [] else [pyUpper s]
  | none => []

theorem addTag_eq (tags : List String) (field : Option String) :
    addTag tags field = tags ++ tagOf field := by
  cases field with
  | none => simp [addTag, tagOf]
  | some s =>
    by_cases h : s = "" <;> simp [addTag, tagOf, h]

theorem tagList_eq (info : MediaGuess) :
    tagList info = tagOf info.screen_size ++ tagOf info.source
      ++ tagOf info.video_codec ++ tagOf info.audio_codec := by
  simp [tagList, addTag_eq, List.append_assoc]

theorem tagOf_eq_nil_iff (field : Option String) :
    tagOf field = [] ↔ pyTruthyStr field = false := by
  cases field with
  | none => simp [tagOf, pyTruthyStr]
  | some s =>
    by_cases h : s = "" <;> simp [tagOf, pyTruthyStr, h]

/-- Invariant of the `seen`/`uniq` loop: starting from a duplicate-free
accumulator, the fold appends a duplicate-free selection of the remaining
tokens, keeping exactly the first occurrence of each token not already
accumulated, in order. -/
theorem foldl_dedupStep_spec (l : List String) : ∀ acc : List String, acc.Nodup →
    ∃ u, List.foldl dedupStep acc l = acc ++ u ∧ u.Sublist l ∧ (acc ++ u).Nodup ∧
      (∀ x, x ∈ u ↔ x ∈ l ∧ x ∉ acc) := by
  induction l with
  | nil =>
    intro acc hacc
    exact ⟨[], by simp, List.nil_sublist _, by simpa using hacc, by simp⟩
  | cons t ts ih =>
    intro acc hacc
    by_cases ht : t ∈ acc
    · obtain ⟨u, h1, h2, h3, h4⟩ := ih acc hacc
      refine ⟨u, ?_, h2.cons t, h3, ?_⟩
      · simpa [dedupStep, ht] using h1
      · intro x
        rw [h4 x]
        constructor
        · rintro ⟨hx, hx2⟩
          exact ⟨List.mem_cons_of_mem t hx, hx2⟩
        · rintro ⟨hx, hx2⟩
          rcases List.mem_cons.mp hx with rfl | hx
          · exact absurd ht hx2
          · exact ⟨hx, hx2⟩
    · have hstep : List.foldl dedupStep acc (t :: ts) =
          List.foldl dedupStep (acc ++ [t]) ts := by
        simp [dedupStep, ht]
      have hnodup : (acc ++ [t]).Nodup := by
        simp [List.nodup_append, hacc, ht]
      obtain ⟨u, h1, h2, h3, h4⟩ := ih (acc ++ [t]) hnodup
      refine ⟨t :: u, ?_, h2.cons₂ t, ?_, ?_⟩
      · rw [hstep, h1, List.append_assoc]
        rfl
      · rw [show acc ++ t :: u = (acc ++ [t]) ++ u by simp]
        exact h3
      · intro x
        constructor
        · intro hx
          rcases List.mem_cons.mp hx with rfl | hx
          · exact ⟨List.mem_cons_self x ts, ht⟩
          · have := (h4 x).mp hx
            refine ⟨List.mem_cons_of_mem t this.1, fun hc => this.2 ?_⟩
            simp [hc]
        · rintro ⟨hx, hx2⟩
          rcases List.mem_cons.mp hx with rfl | hx
          · exact List.mem_cons_self x u
          · by_cases hxt : x = t
            · simp [hxt]
            · refine List.mem_cons_of_mem t ((h4 x).mpr ⟨hx, ?_⟩)
              simp [hx2, hxt]

theorem dedupFirst_sublist (l : List String) : (dedupFirst l).Sublist l := by
  obtain ⟨u, h1, h2, -, -⟩ := foldl_dedupStep_spec l [] List.nodup_nil
  simpa [dedupFirst, h1] using h2

theorem dedupFirst_nodup (l : List String) : (dedupFirst l).Nodup := by
  obtain ⟨u, h1, -, h3, -⟩ := foldl_dedupStep_spec l [] List.nodup_nil
  simpa [dedupFirst, h1] using h3

theorem mem_dedupFirst (l : List String) (x : String) :
    x ∈ dedupFirst l ↔ x ∈ l := by
  obtain ⟨u, h1, -, -, h4⟩ := foldl_dedupStep_spec l [] List.nodup_nil
  simp only [dedupFirst, h1, List.nil_append]
  simpa using h4 x

theorem dedupFirst_eq_nil_iff (l : List String) : dedupFirst l = [] ↔ l = [] := by
  constructor
  · intro h
    rcases l with - | ⟨t, ts⟩
    · rfl
    · exfalso
      have := (mem_dedupFirst (t :: ts) t).mpr (List.mem_cons_self t ts)
      rw [h] at this
      exact (List.not_mem_nil t) this
  · intro h
    subst h
    rfl

theorem tagList_eq_nil_iff (info : MediaGuess) :
    tagList info = [] ↔
      (pyTruthyStr info.screen_size = false ∧ pyTruthyStr info.source = false ∧
       pyTruthyStr info.video_codec = false ∧ pyTruthyStr info.audio_codec = false) := by
  rw [tagList_eq]
  simp [List.append_eq_nil, tagOf_eq_nil_iff, and_assoc]

theorem bracketed_ne_empty (s : String) : " [" ++ s ++ "]" ≠ "" := by
  intro hc
  have hlen := congrArg String.length hc
  rw [String.length_append, String.length_append] at hlen
  have h2 : (" [" : String).length = 2 := rfl
  have h1 : ("]" : String).length = 1 := rfl
  have h0 : ("" : String).length = 0 := rfl
  rw [h2, h1, h0] at hlen
  omega

/-- C3: `build_tag_suffix` returns the empty string exactly when no quality
tag field is present (truthy); otherwise it returns `" [TOKEN1 TOKEN2 ...]"`
whose token list is the duplicate-free selection — first occurrence kept, in
order — of the uppercased truthy tag fields taken in (screen_size, source,
video_codec, audio_codec) order, so no token appears twice even when two
different fields contribute it. -/
theorem build_tag_suffix_spec (info : MediaGuess) :
    (build_tag_suffix info = "" ↔
      (pyTruthyStr info.screen_size = false ∧ pyTruthyStr info.source = false ∧
       pyTruthyStr info.video_codec = false ∧ pyTruthyStr info.audio_codec = false))
    ∧ (¬(pyTruthyStr info.screen_size = false ∧ pyTruthyStr info.source = false ∧
         pyTruthyStr info.video_codec = false ∧ pyTruthyStr info.audio_codec = false) →
        build_tag_suffix info =
          " [" ++ String.intercalate " " (dedupFirst (tagList info)) ++ "]")
    ∧ (dedupFirst (tagList info)).Nodup
    ∧ (dedupFirst (tagList info)).Sublist (tagList info)
    ∧ (∀ x, x ∈ dedupFirst (tagList info) ↔ x ∈ tagList info) := by
  refine ⟨?_, ?_, dedupFirst_nodup _, dedupFirst_sublist _, mem_dedupFirst _⟩
  · by_cases h : dedupFirst (tagList info) = []
    · rw [show build_tag_suffix info = "" by simp [build_tag_suffix, h]]
      simp only [true_iff, iff_true]
      exact (tagList_eq_nil_iff info).mp ((dedupFirst_eq_nil_iff _).mp h)
    · rw [show build_tag_suffix info =
          " [" ++ String.intercalate " " (dedupFirst (tagList info)) ++ "]" by
        simp [build_tag_suffix, h]]
      constructor
      · intro hc
        exact absurd hc (bracketed_ne_empty _)
      · intro hfalsy
        exact absurd ((dedupFirst_eq_nil_iff _).mpr ((tagList_eq_nil_iff info).mpr hfalsy)) h
  · intro hfalsy
    have h : dedupFirst (tagList info) ≠ [] := fun hc =>
      hfalsy ((tagList_eq_nil_iff info).mp ((dedupFirst_eq_nil_iff _).mp hc))
    simp [build_tag_suffix, h]

/-- A parsed-info value whose source and video-codec fields contribute the
same token ("1080P") twice. -/
def dupTagInfo : MediaGuess :=
  ⟨none, none, none, none, none, some "1080p", some "WEB-DL", some "1080P", none⟩

theorem build_tag_suffix_spec_witness :
    build_tag_suffix dupTagInfo = " [1080P WEB-DL]" := by
  have h := (build_tag_suffix_spec dupTagInfo).2.1 (by decide)
  rw [h]
  decide

/-- The show name `handle_episode` uses: the resolver's name when a match was
found (falling back to the parsed title when that name is empty), and the
parsed title when resolution yields no match. -/
def showNameOf (res : Option TVResolved) (title : String) : String :=
  match res with
  | some r => pyOrStr r.name title
  | none => title

/-- C1: for an episode with truthy title and present season and episode,
`handle_episode` moves the file to
`<TVRoot>/<ShowName>/Season <SS>/<ShowName> - S<SS>E<EE><TagSuffix><ext>`,
where `ShowName` is the resolved show name (or the parsed title when
resolution yields no match), `SS`/`EE` are the season/episode numbers
zero-padded to 2 digits, and `<ext>` is the original file's extension. -/
theorem handle_episode_dest (env : Env) (f : FileView) (info : MediaGuess)
    (title : String) (season episode : Nat) (res : Option TVResolved)
    (htitle : info.title = some title) (hne : title ≠ "")
    (hs : info.season = some season) (he : info.episode = some episode)
    (hres : (tmdb_search_tv env.apiKey env.tvResp title).result = .ok res)
    (hmv : f.moveOk = true) :
    handle_episode env f info =
      .ok (some (env.tvDir ++ "/" ++ showNameOf res title ++ "/Season " ++ pad2 season
        ++ "/" ++ showNameOf res title ++ " - S" ++ pad2 season ++ "E" ++ pad2 episode
        ++ build_tag_suffix info ++ pathSuffix f.name)) := by
  rw [handle_episode, htitle, hs, he]
  simp only [hres, hne, if_false, ite_false, hmv, if_true, ite_true, showNameOf]
  cases res <;> simp [String.append_assoc]

/-- The sample environment: no TMDB key configured, default destination
roots. -/
def sampleEnv : Env :=
  ⟨"", "/media/tv", "/media/movies", .status true none, .status true none⟩

/-- The guess `guessit` produces for `Breaking.Bad.S01E01.1080p.mkv`. -/
def episodeInfo : MediaGuess :=
  ⟨some "episode", some "Breaking Bad", none, some 1, some 1, some "1080p",
    none, none, none⟩

/-- The episode file of the spec's worked example: 60 MiB, movable. -/
def episodeFile : FileView :=
  ⟨true, some 62914560, "Breaking.Bad.S01E01.1080p.mkv", true⟩

theorem handle_episode_dest_witness :
    handle_episode sampleEnv episodeFile episodeInfo =
      .ok (some "/media/tv/Breaking Bad/Season 01/Breaking Bad - S01E01 [1080P].mkv") := by
  have h := handle_episode_dest sampleEnv episodeFile episodeInfo
    "Breaking Bad" 1 1 none rfl (by decide) rfl rfl rfl rfl
  rw [h]
  decide

/-- The movie title `handle_movie` uses: the resolver's title when a match
was found (falling back to the parsed title when that title is empty), and
the parsed title when resolution yields no match. -/
def movieTitleOf (res : Option MovieResolved) (title : String) : String :=
  match res with
  | some r => pyOrStr r.title title
  | none => title

/-- The year `handle_movie` uses: the resolver's year when a match was found
and its year is truthy, else the filename year. -/
def movieYearOf (res : Option MovieResolved) (year : Option Nat) : Option Nat :=
  match res with
  | some r => pyOrNat r.year year
  | none => year

/-- C2: for a movie with truthy title, `handle_movie` moves the file to
`<MoviesRoot>/<Title> (<Year>)<TagSuffix><ext>` when a year is known (from
resolution or the filename), and to `<MoviesRoot>/<Title><TagSuffix><ext>`
when the year is absent. -/
theorem handle_movie_dest (env : Env) (f : FileView) (info : MediaGuess)
    (title : String) (res : Option MovieResolved)
    (htitle : info.title = some title) (hne : title ≠ "")
    (hres : (tmdb_search_movie env.apiKey env.movieResp title info.year).result = .ok res)
    (hmv : f.moveOk = true) :
    (∀ y : Nat, movieYearOf res info.year = some y → y ≠ 0 →
      handle_movie env f info =
        .ok (some (env.moviesDir ++ "/" ++ movieTitleOf res title ++ " (" ++ toString y
          ++ ")" ++ build_tag_suffix info ++ pathSuffix f.name)))
    ∧ (movieYearOf res info.year = none →
      handle_movie env f info =
        .ok (some (env.moviesDir ++ "/" ++ movieTitleOf res title
          ++ build_tag_suffix info ++ pathSuffix f.name))) := by
  have hmain : handle_movie env f info = .ok (some (env.moviesDir ++ "/"
      ++ (match movieYearOf res info.year with
          | some y => if y = 0 then movieTitleOf res title
              else movieTitleOf res title ++ " (" ++ toString y ++ ")"
          | none => movieTitleOf res title)
      ++ build_tag_suffix info ++ pathSuffix f.name)) := by
    rw [handle_movie, htitle]
    simp only [hne, if_false, ite_false, hres, hmv, if_true, ite_true]
    cases res <;> simp [movieTitleOf, movieYearOf, String.append_assoc]
  constructor
  · intro y hy hy0
    rw [hmain, hy]
    simp [hy0, String.append_assoc]
  · intro hy
    rw [hmain, hy]

/-- The guess `guessit` produces for `Inception.2010.mp4`. -/
def movieInfo : MediaGuess :=
  ⟨some "movie", some "Inception", some 2010, none, none, none, none, none, none⟩

/-- The movie file of the spec's worked example: 60 MiB, movable. -/
def movieFile : FileView :=
  ⟨true, some 62914560, "Inception.2010.mp4", true⟩

theorem handle_movie_dest_witness :
    handle_movie sampleEnv movieFile movieInfo =
      .ok (some "/media/movies/Inception (2010).mp4") := by
  have h := (handle_movie_dest sampleEnv movieFile movieInfo "Inception" none
    rfl (by decide) rfl rfl).1 2010 rfl (by decide)
  rw [h]
  decide

/-- C5: on a successful movie resolution with at least one candidate, the
resolved year is the integer value of the first 4 characters of the
candidate's release date when those characters are all digits; otherwise it
is the caller-supplied (truthy) year when present; otherwise it is absent.
(The resolved title is the candidate's, falling back to the query title.) -/
theorem tmdb_movie_year_spec (apiKey title : String) (year : Option Nat)
    (best : MovieCandidate) (rest : List MovieCandidate) (hk : apiKey ≠ "") :
    (pyIsDigit (((best.release_date).getD "").take 4) = true →
      (tmdb_search_movie apiKey (.status true (some (some (best :: rest)))) title year).result
        = .ok (some ⟨pyOrStr ((best.title).getD "") title,
            some (strToNat (((best.release_date).getD "").take 4))⟩))
    ∧ (pyIsDigit (((best.release_date).getD "").take 4) = false →
       ∀ y : Nat, year = some y → y ≠ 0 →
        (tmdb_search_movie apiKey (.status true (some (some (best :: rest)))) title year).result
          = .ok (some ⟨pyOrStr ((best.title).getD "") title, some y⟩))
    ∧ (pyIsDigit (((best.release_date).getD "").take 4) = false → year = none →
        (tmdb_search_movie apiKey (.status true (some (some (best :: rest)))) title year).result
          = .ok (some ⟨pyOrStr ((best.title).getD "") title, none⟩)) := by
  refine ⟨fun hd => ?_, fun hd y hy hy0 => ?_, fun hd hy => ?_⟩
  · rw [tmdb_search_movie]
    simp [hk, hd]
  · subst hy
    rw [tmdb_search_movie]
    simp [hk, hd, pyTruthyNat, hy0]
  · subst hy
    rw [tmdb_search_movie]
    simp [hk, hd, pyTruthyNat]

/-- The first TMDB search result for "Inception". -/
def inceptionCandidate : MovieCandidate :=
  ⟨some "Inception", some "2010-07-16"⟩

theorem tmdb_movie_year_spec_witness :
    (tmdb_search_movie "k" (.status true (some (some [inceptionCandidate])))
      "inception" none).result = .ok (some ⟨"Inception", some 2010⟩) := by
  have h := (tmdb_movie_year_spec "k" "inception" none inceptionCandidate []
    (by decide)).1 (by decide)
  rw [h]
  decide

/-- C4 as stated is false at this input: with a key configured, a network
error during `requests.get` propagates out of `tmdb_search_movie` as an
exception instead of producing the "no match" result `None`. -/
theorem tmdb_net_error_raises :
    (tmdb_search_movie "k" .raiseOnGet "Inception" none).result = .error ()
    ∧ ¬ (tmdb_search_movie "k" .raiseOnGet "Inception" none).result = .ok none := by
  decide

/-- C4 (amended): with no API key both resolvers return "no match" and make
zero HTTP requests; a non-success status, a missing/null `results` key, and
an empty result list each return "no match"; but a network error during the
request, or a response body whose JSON decoding fails, raises an exception
out of the resolver. That exception is caught at the per-file boundary in
`sweep_once`, so a sweep still attempts every enumerated file. -/
theorem resolver_failure_modes (title : String) (year : Option Nat) :
    (∀ respM : TmdbResponse MovieCandidate,
      tmdb_search_movie "" respM title year = ⟨.ok none, 0⟩)
    ∧ (∀ respT : TmdbResponse TVCandidate,
      tmdb_search_tv "" respT title = ⟨.ok none, 0⟩)
    ∧ (∀ apiKey : String, apiKey ≠ "" →
        (∀ b, (tmdb_search_movie apiKey (.status false b) title year).result = .ok none)
        ∧ (∀ b, (tmdb_search_tv apiKey (.status false b) title).result = .ok none)
        ∧ (tmdb_search_movie apiKey (.status true (some none)) title year).result = .ok none
        ∧ (tmdb_search_tv apiKey (.status true (some none)) title).result = .ok none
        ∧ (tmdb_search_movie apiKey (.status true (some (some []))) title year).result = .ok none
        ∧ (tmdb_search_tv apiKey (.status true (some (some []))) title).result = .ok none
        ∧ (tmdb_search_movie apiKey .raiseOnGet title year).result = .error ()
        ∧ (tmdb_search_tv apiKey .raiseOnGet title).result = .error ()
        ∧ (tmdb_search_movie apiKey (.status true none) title year).result = .error ()
        ∧ (tmdb_search_tv apiKey (.status true none) title).result = .error ())
    ∧ (∀ (env : Env) (guess : String → MediaGuess) (f : FileView) (rest : List FileView),
        ((sweep_once env guess true (f :: rest)).attempts).length = rest.length + 1) := by
  refine ⟨?_, ?_, ?_, ?_⟩
  · intro respM
    simp [tmdb_search_movie.eq_def]
  · intro respT
    simp [tmdb_search_tv.eq_def]
  · intro apiKey hk
    refine ⟨fun b => ?_, fun b => ?_, ?_, ?_, ?_, ?_, ?_, ?_, ?_, ?_⟩ <;>
      simp [tmdb_search_movie.eq_def, tmdb_search_tv.eq_def, hk]
  · intro env guess f rest
    simp [sweep_once]

theorem resolver_failure_modes_witness :
    (tmdb_search_movie "" .raiseOnGet "Inception" none = ⟨.ok none, 0⟩)
    ∧ (tmdb_search_movie "k" (.status false none) "Inception" none).result = .ok none
    ∧ (tmdb_search_movie "k" (.status true (some (some []))) "Inception" none).result
        = .ok none
    ∧ (tmdb_search_tv "k" .raiseOnGet "Breaking Bad").result = .error () := by
  have h := resolver_failure_modes "Inception" none
  have hk := h.2.2.1 "k" (by decide)
  exact ⟨h.1 .raiseOnGet,
    hk.1 none,
    hk.2.2.2.2.1,
    (resolver_failure_modes "Breaking Bad" none).2.2.1 "k" (by decide) |>.2.2.2.2.2.2.2.1⟩

/-- C6: a regular file whose size is below `MIN_SIZE_BYTES` is never moved
and `guessit` is never invoked on its name — the trace is independent of the
parser altogether, since the size check precedes classification. -/
theorem process_file_small_skip (env : Env) (guess : String → MediaGuess)
    (f : FileView) (n : Nat) (hf : f.isFile = true) (hsz : f.size = some n)
    (h : n < MIN_SIZE_BYTES) :
    process_file env guess f = .ok ⟨false, none⟩ := by
  rw [process_file, hf, hsz]
  simp [h]

/-- A parser stub used only to instantiate universally quantified parser
arguments in witnesses. -/
def noGuess : String → MediaGuess :=
  fun _ => ⟨none, none, none, none, none, none, none, none, none⟩

/-- A 10-byte sample file. -/
def sampleSmallFile : FileView := ⟨true, some 10, "sample.mkv", true⟩

theorem process_file_small_skip_witness :
    process_file sampleEnv noGuess sampleSmallFile = .ok ⟨false, none⟩ :=
  process_file_small_skip sampleEnv noGuess sampleSmallFile 10 rfl rfl (by decide)

/-- C10: a path that is not an existing regular file at processing time is
returned from without raising — even when `stat` would raise (`size = none`)
— without invoking the parser and without moving anything: the `is_file`
guard precedes the size stat and classification. -/
theorem process_file_not_regular (env : Env) (guess : String → MediaGuess)
    (f : FileView) (hf : f.isFile = false) :
    process_file env guess f = .ok ⟨false, none⟩ := by
  rw [process_file, hf]
  simp

/-- A path that vanished between enumeration and processing: not a regular
file any more, and `stat` would raise. -/
def vanishedFile : FileView := ⟨false, none, "gone.mkv", true⟩

theorem process_file_not_regular_witness :
    process_file sampleEnv noGuess vanishedFile = .ok ⟨false, none⟩ :=
  process_file_not_regular sampleEnv noGuess vanishedFile rfl

/-- C7: when the source root exists, a sweep attempts every enumerated file
exactly once, in order — the i-th attempt is exactly the `process_file`
outcome for the i-th file — and a per-file exception (an `.error` attempt)
is caught inside `sweep_once`, which is total and therefore never aborts
early, whatever the attempts' outcomes. -/
theorem sweep_attempts_every_file (env : Env) (guess : String → MediaGuess)
    (files : List FileView) :
    (sweep_once env guess true files).earlyReturn = false
    ∧ (sweep_once env guess true files).attempts.length = files.length
    ∧ ∀ i : Nat, (sweep_once env guess true files).attempts[i]? =
        (files[i]?).map (fun f => process_file env guess f) := by
  refine ⟨rfl, by simp [sweep_once], fun i => ?_⟩
  simp [sweep_once]

/-- C8 as stated is false at this input: with the source root absent, the
`POST /scan-once` trigger answers 200 "OK" — the early return in
`sweep_once` is not an exception, so the 500 "ERROR" branch cannot fire. -/
theorem trigger_missing_root_not_error :
    do_POST sampleEnv noGuess false [] "/scan-once" = ⟨200, "OK"⟩
    ∧ ¬ do_POST sampleEnv noGuess false [] "/scan-once" = ⟨500, "ERROR"⟩ := by
  decide

/-- C8 (amended): when the source root does not exist, `sweep_once` returns
early without attempting any file; invoked via the on-demand HTTP trigger
this early return is a normal return, so the trigger reports success
(200 "OK"), not a server-error "ERROR" response. -/
theorem sweep_missing_root (env : Env) (guess : String → MediaGuess)
    (files : List FileView) :
    (sweep_once env guess false files).earlyReturn = true
    ∧ (sweep_once env guess false files).attempts = []
    ∧ do_POST env guess false files "/scan-once" = ⟨200, "OK"⟩ := by
  exact ⟨rfl, rfl, rfl⟩

/-- C9 is contradicted by the code: in server mode (no `--once`) `main` only
starts the HTTP trigger server and blocks in `serve_forever()`; with no
inbound request, no sweep ever runs, and `SLEEP_SECONDS` never enters the
computation — there is no periodic timer. -/
theorem server_mode_no_periodic_sweep :
    main_sweep_count false [] = 0
    ∧ ∀ requests : List String, main_sweep_count false requests =
        (requests.filter (fun p => p = "/scan-once")).length := by
  exact ⟨rfl, fun requests => rfl⟩

end Organizer
